import Mathlib

/-!
Verification development for the CO2-Pomfret forest growth simulator.

The definitions below are a shallow embedding of the Python modules
`src/models/baseline_growth_curve.py`, `src/models/baseline_simulation.py`,
`src/models/dbh_residual_model.py`, `src/models/forest_snapshots.py` and
`src/models/forest_snapshots_nn.py`.  Real numbers are modelled by `ℚ`
(the source works with exact real semantics in mind; float rounding is not
modelled), pandas data frames by lists of records, Python dicts by
association lists that keep insertion order, and the machine-learned
predictors (neural network / XGBoost outputs, random draws) by explicit
oracle arguments, since their numeric outputs are external to the code
under verification.  Columns that no claim touches (carbon metrics,
positional columns) are omitted from the state records.
-/

namespace CO2Pomfret

/-- The plateau tolerance `1e-6` used throughout the diagnostics. -/
def TOL : ℚ := 1 / 1000000

/-- `np.clip(x, lo, hi)`: `min(max(x, lo), hi)` (upper bound applied last). -/
def npClip (x lo hi : ℚ) : ℚ := min (max x lo) hi

/-- Python's `abs()` (kept as an explicit conditional so that concrete
instances evaluate). -/
def ratAbs (q : ℚ) : ℚ := if q < 0 then -q else q

/-- Ascending sort, the embedding of `sort_values()` / numpy's sort (the
ordering of the sorted values is all that the source depends on). -/
def sortAsc (l : List ℚ) : List ℚ :=
  l.insertionSort (· ≤ ·)

/-- Arithmetic mean of a list (`0` for the empty list; pandas would give NaN,
which no claim exercises). -/
def listMean (l : List ℚ) : ℚ :=
  if l.length = 0 then 0 else l.sum / l.length

/-- pandas `median()`: middle element of the sorted list, or the average of the
two middle elements for even length (`0` for the empty list). -/
def listMedian (l : List ℚ) : ℚ :=
  let s := sortAsc l
  let n := s.length
  if n = 0 then 0
  else if n % 2 = 1 then s.getD (n / 2) 0
  else (s.getD (n / 2 - 1) 0 + s.getD (n / 2) 0) / 2

/-- `np.searchsorted(l, v, side='right')` for a `≤`-sorted `l`: the number of
elements that are `≤ v`. -/
def searchsortedRight (l : List ℚ) (v : ℚ) : ℕ :=
  l.countP (fun x => decide (x ≤ v))

/-- Linear-interpolation quantile evaluation at fractional position `pos`
into the `≤`-sorted list `l` (the interpolation scheme of `np.quantile` /
`np.percentile` with the default method). -/
def quantileAtPos (l : List ℚ) (pos : ℚ) : ℚ :=
  let n := l.length
  let i := (⌊pos⌋).toNat
  let g := pos - (⌊pos⌋ : ℚ)
  if i + 1 < n then l.getD i 0 + g * (l.getD (i + 1) 0 - l.getD i 0)
  else l.getD (n - 1) 0

/-- `np.quantile(l, q)` (sorts its input, linear interpolation). -/
def npQuantile (l : List ℚ) (q : ℚ) : ℚ :=
  quantileAtPos (sortAsc l) (q * ((l.length : ℚ) - 1))

/-- `np.percentile(l, p)` = `np.quantile(l, p/100)`. -/
def npPercentile (l : List ℚ) (p : ℚ) : ℚ :=
  quantileAtPos (sortAsc l) (p / 100 * ((l.length : ℚ) - 1))

/-- `np.interp(x, xs, ys)` on the paired knot list (clamping at both ends),
the linear interpolator of `_create_interpolator`. -/
def npInterp (x : ℚ) : List (ℚ × ℚ) → ℚ
  | [] => 0
  | [(_, y1)] => y1
  | (x1, y1) :: (x2, y2) :: rest =>
    if x ≤ x1 then y1
    else if x ≤ x2 then
      y1 + (x - x1) * (y2 - y1) / (x2 - x1)
    else npInterp x ((x2, y2) :: rest)

/-!
### `apply_high_dbh_guardrail` (baseline_growth_curve.py, lines 275–335)

The in-place loop `for i in range(start, n): if i > 0: d[i] = min(d[i], d[i-1])`
is embedded as `guardLoop start`, which threads the updated previous value.
-/

/-- The running-minimum loop of the guardrail: at position `i ≥ max start 1`
replace the value by `min value previous`, where `previous` is the already
updated value at `i - 1`. -/
def guardLoop (start : ℕ) : ℕ → ℚ → List ℚ → List ℚ
  | _, _, [] => []
  | i, prev, x :: xs =>
    let x' := if start ≤ i ∧ 1 ≤ i then min x prev else x
    x' :: guardLoop start (i + 1) x' xs

/-- Tail start index of the guardrail: the 80th-percentile position of the bin
centers, clamped so that the tail has at least `max 2 (n/10)` bins and at most
`n/2` bins (`int()` on nonnegative floats is `Nat` division here). -/
def tailStartIdx (binCenters : List ℚ) (tailStartQuantile : ℚ) : ℕ :=
  let n := binCenters.length
  let tailStartDbh := npQuantile binCenters tailStartQuantile
  let idx := searchsortedRight binCenters tailStartDbh
  let minTailBins := max 2 (n / 10)
  let maxTailBins := n / 2
  max (n - maxTailBins) (min (n - minTailBins) idx)

/-- `apply_high_dbh_guardrail(bin_centers, delta_values)`: clamp to
nonnegative, then force the tail (or the whole sequence when there are fewer
than 5 bins) to be non-increasing. -/
def applyHighDbhGuardrail (binCenters deltaValues : List ℚ)
    (method : String := "tail_monotone") (tailStartQuantile : ℚ := 8 / 10) :
    List ℚ :=
  if binCenters.length = 0 ∨ deltaValues.length = 0 then deltaValues
  else
    let deltaGuarded := deltaValues.map (fun d => max 0 d)
    if method = "tail_monotone" then
      if binCenters.length < 5 then guardLoop 1 0 0 deltaGuarded
      else
        let start := tailStartIdx binCenters tailStartQuantile
        (guardLoop start 0 0 deltaGuarded).map (fun d => max 0 d)
    else deltaGuarded

/-!
### `_create_interpolator` (baseline_growth_curve.py, lines 519–563)
-/

/-- `_create_interpolator(bins_data, apply_guardrail)` evaluated at
`prev_dbh_cm`.  Empty bins give constant 0, a single bin gives a constant,
otherwise a guardrailed linear interpolation clamped to the endpoint values
(and to 0 from below). -/
def createInterpolator (binsData : List (ℚ × ℚ)) (applyGuardrail : Bool)
    (prevDbhCm : ℚ) : ℚ :=
  match binsData with
  | [] => 0
  | [b] => b.2
  | b1 :: b2 :: rest =>
    let allBins := b1 :: b2 :: rest
    let dbhValues := allBins.map Prod.fst
    let deltaValues0 := allBins.map Prod.snd
    let deltaValues :=
      if applyGuardrail ∧ 1 < deltaValues0.length then
        applyHighDbhGuardrail dbhValues deltaValues0
      else deltaValues0
    if prevDbhCm ≤ dbhValues.getD 0 0 then max 0 (deltaValues.getD 0 0)
    else if dbhValues.getLastD 0 ≤ prevDbhCm then max 0 (deltaValues.getLastD 0)
    else max 0 (npInterp prevDbhCm (dbhValues.zip deltaValues))

/-!
### Curve dictionaries and `predict_baseline_delta`
(baseline_growth_curve.py, lines 566–613)

A Python dict keyed by `f"{species}|{plot}"` is an association list in
insertion order; each entry holds the stored bin list, the fallback level and
the sample count, and its `fn` is `createInterpolator bins true`.
-/

structure CurveInfo where
  bins : List (ℚ × ℚ)
  fallbackLevel : String
  nSamples : ℕ
  deriving DecidableEq, Repr

abbrev Curves := List (String × CurveInfo)

/-- The `fn` field of a stored curve. -/
def curveFn (c : CurveInfo) (prevDbhCm : ℚ) : ℚ :=
  createInterpolator c.bins true prevDbhCm

/-- Python's `key.startswith(p)` on the underlying character lists. -/
def strStartsWith (key p : String) : Bool :=
  p.data.isPrefixOf key.data

/-- The lookup priority of `predict_baseline_delta`: the exact key
`species|plot` first, then the first key starting with `species|`, then the
first curve of the dict as a global proxy (`none` only when the dict is
empty). -/
def lookupCurve (species plot : String) (curves : Curves) :
    Option (String × CurveInfo) :=
  match curves.find? (fun kv => kv.1 = species ++ "|" ++ plot) with
  | some kv => some kv
  | none =>
    match curves.find? (fun kv => strStartsWith kv.1 (species ++ "|")) with
    | some kv => some kv
    | none => curves.head?

/-- `predict_baseline_delta(prev_dbh_cm, species, plot, curves)`: evaluate
the best available curve per `lookupCurve`, or 0 when no curve exists. -/
def predictBaselineDelta (prevDbhCm : ℚ) (species plot : String)
    (curves : Curves) : ℚ :=
  match lookupCurve species plot curves with
  | some kv => curveFn kv.2 prevDbhCm
  | none => 0

/-!
### Curve fitting (`fit_baseline_curves`, `_fit_bins`;
baseline_growth_curve.py, lines 98–272)
-/

/-- One growth observation row of the training table built by
`make_training_table`: previous DBH, species, plot and the annualized
observed increment `delta_obs`. -/
structure Obs where
  prevDbh : ℚ
  species : String
  plot : String
  deltaObs : ℚ
  deriving DecidableEq, Repr

/-- `np.arange(start, stop, step)` for positive `step`. -/
def npArange (start stop step : ℚ) : List ℚ :=
  (List.range (⌈(stop - start) / step⌉.toNat)).map
    (fun k => start + (k : ℚ) * step)

/-- The minimum of a column (`0` for the empty column, unused). -/
def listMin (l : List ℚ) : ℚ :=
  match l with
  | [] => 0
  | x :: xs => xs.foldl min x

/-- The maximum of a column (`0` for the empty column, unused). -/
def listMax (l : List ℚ) : ℚ :=
  match l with
  | [] => 0
  | x :: xs => xs.foldl max x

/-- The DBH bin edges of `fit_baseline_curves`:
`np.arange(floor(min/w)*w, ceil(max/w)*w + w, w)` over the whole training
table. -/
def computeBinEdges (dfTrain : List Obs) (binWidth : ℚ) : List ℚ :=
  let dbhs := dfTrain.map (·.prevDbh)
  let dbhMin := listMin dbhs
  let dbhMax := listMax dbhs
  npArange ((⌊dbhMin / binWidth⌋ : ℚ) * binWidth)
    ((⌈dbhMax / binWidth⌉ : ℚ) * binWidth + binWidth) binWidth

/-- The per-bin robust estimate of `_fit_bins`: trimmed mean when the bin has
more than 2 points and trimming is on (median otherwise), clamped to `≥ 0`. -/
def fitBinValue (binData : List ℚ) (trimFraction : ℚ) : ℚ :=
  let deltaMean :=
    if 0 < trimFraction ∧ 2 < binData.length then
      let trimN := (⌊(binData.length : ℚ) * trimFraction⌋).toNat
      if 0 < trimN then
        listMean (((sortAsc binData).take (binData.length - trimN)).drop trimN)
      else listMean binData
    else listMedian binData
  max 0 deltaMean

/-- `_fit_bins(df, bin_edges, trim_fraction)`: one `(bin_center, value)` pair
per consecutive edge pair whose half-open bin `[lo, hi)` contains data. -/
def fitBins (df : List Obs) (binEdges : List ℚ) (trimFraction : ℚ) :
    List (ℚ × ℚ) :=
  (binEdges.zip binEdges.tail).filterMap fun e =>
    let binData :=
      (df.filter (fun o => e.1 ≤ o.prevDbh ∧ o.prevDbh < e.2)).map (·.deltaObs)
    if binData.length = 0 then none
    else some ((e.1 + e.2) / 2, fitBinValue binData trimFraction)

/-- The body of the per-group loop of `fit_baseline_curves`: with at least
`min_samples` observations in the `(species, plot)` group the curve is fitted
from the group's rows (level `species_plot`); otherwise from all rows of the
species when those reach the threshold (level `species`); otherwise from the
whole training table (level `global`).  Bin edges come from the whole table. -/
def fitCurveForGroup (dfTrain : List Obs) (minSamples : ℕ) (binWidth : ℚ)
    (trimFraction : ℚ) (species plot : String) : CurveInfo :=
  let binEdges := computeBinEdges dfTrain binWidth
  let groupDf := dfTrain.filter (fun o => o.species = species ∧ o.plot = plot)
  if minSamples ≤ groupDf.length then
    { bins := fitBins groupDf binEdges trimFraction
      fallbackLevel := "species_plot"
      nSamples := groupDf.length }
  else
    let speciesDf := dfTrain.filter (fun o => o.species = species)
    if speciesDf.length ≠ 0 ∧ minSamples ≤ speciesDf.length then
      { bins := fitBins speciesDf binEdges trimFraction
        fallbackLevel := "species"
        nSamples := speciesDf.length }
    else
      { bins := fitBins dfTrain binEdges trimFraction
        fallbackLevel := "global"
        nSamples := dfTrain.length }

/-!
### `predict_delta_sim` / `predict_dbh_next_year_sim`
(baseline_simulation.py, lines 48–166)

The per-group sigma lookup and the normal draw of the stochastic mode are
external inputs here: `sigma` stands for `get_residual_sigma(...)` and
`noiseDraw` for `rng.normal(0, sigma)`.
-/

structure DeltaSimResult where
  deltaBase : ℚ
  noise : ℚ
  deltaTotalRaw : ℚ
  deltaUsed : ℚ
  wasClamped : Bool
  deriving DecidableEq, Repr

/-- `predict_delta_sim(prev_dbh_cm, species, plot, ..., mode)`:
deterministic baseline delta, plus (in `baseline_stochastic` mode) the noise
draw clipped to `±2.5σ`; the total is clamped to `≥ 0`. -/
def predictDeltaSim (prevDbhCm : ℚ) (species plot : String) (mode : String)
    (curves : Curves) (sigma noiseDraw : ℚ) : DeltaSimResult :=
  let deltaBase := predictBaselineDelta prevDbhCm species plot curves
  let noise :=
    if mode = "baseline_stochastic" then
      npClip noiseDraw (-(5 / 2) * sigma) ((5 / 2) * sigma)
    else 0
  let deltaTotalRaw := deltaBase + noise
  let deltaUsed := max 0 deltaTotalRaw
  { deltaBase := deltaBase
    noise := noise
    deltaTotalRaw := deltaTotalRaw
    deltaUsed := deltaUsed
    wasClamped := decide (deltaTotalRaw < 0) }

/-- `predict_dbh_next_year_sim`: `prev + delta_used`. -/
def predictDbhNextYearSim (prevDbhCm : ℚ) (species plot : String)
    (mode : String) (curves : Curves) (sigma noiseDraw : ℚ) : ℚ :=
  prevDbhCm + (predictDeltaSim prevDbhCm species plot mode curves
    sigma noiseDraw).deltaUsed

/-!
### Residual model (`dbh_residual_model.py`)

`compute_residual_clip_bounds` (lines 269–294) and `predict_delta_hybrid`
(lines 369–451).  The XGBoost regressor's raw output is the oracle argument
`modelOut` (the feature-vector plumbing feeds only that prediction).
-/

/-- `compute_residual_clip_bounds(y_train)`: the 5th and 95th percentiles of
the training residuals. -/
def computeResidualClipBounds (yTrain : List ℚ)
    (percentileLow : ℚ := 5) (percentileHigh : ℚ := 95) : ℚ × ℚ :=
  (npPercentile yTrain percentileLow, npPercentile yTrain percentileHigh)

/-- `predict_delta_hybrid`: baseline delta, residual-model output clipped to
the stored bounds, and their sum `(delta_base, delta_resid, delta_total)`. -/
def predictDeltaHybrid (prevDbhCm : ℚ) (species plot : String)
    (curves : Curves) (clipLow clipHigh : ℚ) (modelOut : ℚ) : ℚ × ℚ × ℚ :=
  let deltaBase := predictBaselineDelta prevDbhCm species plot curves
  let deltaResid := npClip modelOut clipLow clipHigh
  (deltaBase, deltaResid, deltaBase + deltaResid)

/-!
### One-year NN-model step (`simulate_forest_one_year` in
forest_snapshots_nn.py, lines 239–471, `nn_state` branch)

`nextDbhPred` stands for `predict_dbh_next_year_nn(...)` (the neural network
is an external artifact) and `hybridModelOut` for the raw residual-model
output in hybrid mode.
-/

/-- The per-tree `nn_state` update of `simulate_forest_one_year`: `hard0`
clamps a negative predicted delta to zero, `epsilon` replaces it with
`epsilon_cm`, `hybrid` clamps the hybrid total to `≥ 0`, and any other mode
falls into the legacy monotonic-enforcement branch. -/
def simulateTreeOneYearNN (prevDbh nextDbhPred : ℚ) (simulationMode : String)
    (epsilonCm : ℚ) (curves : Curves) (species plot : String)
    (clipLow clipHigh hybridModelOut : ℚ)
    (enforceMonotonicDbh : Bool) (maxAnnualShrinkCm : ℚ) : ℚ :=
  let deltaPred := nextDbhPred - prevDbh
  if simulationMode = "hard0" then
    prevDbh + max 0 deltaPred
  else if simulationMode = "epsilon" then
    prevDbh + (if deltaPred < 0 then epsilonCm else deltaPred)
  else if simulationMode = "hybrid" then
    let h := predictDeltaHybrid prevDbh species plot curves clipLow clipHigh
      hybridModelOut
    prevDbh + max 0 h.2.2
  else
    if enforceMonotonicDbh then
      let minAllowedDbh := prevDbh - maxAnnualShrinkCm
      if nextDbhPred < minAllowedDbh then minAllowedDbh else nextDbhPred
    else nextDbhPred

/-!
### Stuck-tree detection (`detect_stuck_trees` in forest_snapshots_nn.py,
lines 685–738)
-/

/-- The inner condition of `detect_stuck_trees` at `year`: the change into
`year` is below tolerance and every later diameter stays within tolerance of
the `year` diameter. -/
def isPermanentlyStuckAt (dbhList : List ℚ) (year : ℕ) : Bool :=
  decide (ratAbs (dbhList.getD year 0 - dbhList.getD (year - 1) 0) < TOL) &&
  (List.range' (year + 1) (dbhList.length - (year + 1))).all
    (fun futureYear =>
      decide (ratAbs (dbhList.getD futureYear 0 - dbhList.getD year 0) < TOL))

/-- The first stuck year of one tree's history (`None` when the history has
fewer than 2 entries or no year qualifies). -/
def yearFirstStuck (dbhList : List ℚ) : Option ℕ :=
  if dbhList.length < 2 then none
  else (List.range' 1 (dbhList.length - 1)).find?
    (fun year => isPermanentlyStuckAt dbhList year)

/-- A stuck-tree record of `detect_stuck_trees`. -/
structure StuckRecord where
  treeId : ℕ
  dbhAtStuck : ℚ
  yearFirstStuckPlateau : ℕ
  deriving DecidableEq, Repr

/-- `detect_stuck_trees(dbh_history, total_years)`: one record per tree whose
history has a first permanently-stuck year. -/
def detectStuckTrees (dbhHistory : List (ℕ × List ℚ)) : List StuckRecord :=
  dbhHistory.filterMap fun h =>
    match yearFirstStuck h.2 with
    | some year =>
      some { treeId := h.1, dbhAtStuck := h.2.getD year 0,
             yearFirstStuckPlateau := year }
    | none => none

/-- Proposition form of `isPermanentlyStuckAt`: the change into `year` is
below tolerance and every later diameter stays within tolerance of the
anchor diameter at `year`. -/
def codeStuckProp (dbhList : List ℚ) (year : ℕ) : Prop :=
  ratAbs (dbhList.getD year 0 - dbhList.getD (year - 1) 0) < TOL ∧
  ∀ j, year < j → j < dbhList.length →
    ratAbs (dbhList.getD j 0 - dbhList.getD year 0) < TOL

/-- The condition the spec text uses instead: every consecutive yearly change
from year `k` through the end of the history is below tolerance.
Modelled from the spec for the comparison in the plateau claim. -/
def specPlateauedBy (dbhList : List ℚ) (k : ℕ) : Bool :=
  decide (1 ≤ k) && decide (k < dbhList.length) &&
  (List.range' k (dbhList.length - k)).all
    (fun j => decide (ratAbs (dbhList.getD j 0 - dbhList.getD (j - 1) 0) < TOL))

/-!
### Forest engine (`forest_snapshots.py`, lines 266–627)

A tree row carries the mutable diameter state; carbon columns are derived
outputs that no claim touches and are omitted.  The seeded generator
`np.random.default_rng(seed)` is modelled as a pure stream
`noiseStream : seed → draw index → value`; within one year, tree `i`
receives draw `i`.  The per-group sigma table lookup `get_residual_sigma`
is modelled as the function `sigmaOf`.
-/

structure Tree where
  treeId : ℕ
  species : String
  plot : String
  dbh : ℚ
  deriving DecidableEq, Repr

/-- `simulate_forest_one_year(forest_df, mode, seed)` (forest_snapshots.py):
every tree's DBH is replaced by `predict_dbh_next_year_sim` (baseline modes;
the legacy mode of line 341 is outside the baseline engine and not part of
any claim, so this embedding covers the two baseline modes it dispatches). -/
def simulateForestOneYear (curves : Curves) (sigmaOf : String → String → ℚ)
    (noiseStream : ℕ → ℕ → ℚ) (mode : String) (seed : ℕ)
    (forestDf : List Tree) : List Tree :=
  (forestDf.zip (List.range forestDf.length)).map fun ti =>
    { ti.1 with
      dbh := predictDbhNextYearSim ti.1.dbh ti.1.species ti.1.plot mode curves
        (sigmaOf ti.1.species ti.1.plot) (noiseStream seed ti.2) }

/-- The year loop of `simulate_forest_years`: year index `k` (0-based) uses
per-year seed `seed + k`. -/
def simulateForestYearsCore (curves : Curves) (sigmaOf : String → String → ℚ)
    (noiseStream : ℕ → ℕ → ℚ) (mode : String) (seed : ℕ)
    (baseForestDf : List Tree) : ℕ → List Tree
  | 0 => baseForestDf
  | n + 1 =>
    simulateForestOneYear curves sigmaOf noiseStream mode (seed + n)
      (simulateForestYearsCore curves sigmaOf noiseStream mode seed
        baseForestDf n)

/-- The data frame returned by `simulate_forest_years`: the tree rows plus
the `years_ahead` column. -/
structure SnapshotDf where
  trees : List Tree
  yearsAhead : ℤ
  deriving DecidableEq, Repr

/-- `simulate_forest_years(base_forest_df, years, mode, seed)`: raises
`ValueError` for negative `years`, returns the base forest with
`years_ahead = 0` for `years = 0`, and otherwise applies exactly `years`
one-year steps starting from the base forest. -/
def simulateForestYears (curves : Curves) (sigmaOf : String → String → ℚ)
    (noiseStream : ℕ → ℕ → ℚ) (mode : String) (seed : ℕ)
    (baseForestDf : List Tree) (years : ℤ) : Except String SnapshotDf :=
  if years < 0 then .error "years must be non-negative"
  else if years = 0 then .ok { trees := baseForestDf, yearsAhead := 0 }
  else .ok
    { trees := simulateForestYearsCore curves sigmaOf noiseStream mode seed
        baseForestDf years.toNat
      yearsAhead := years }

/-- Python's `sorted` on the requested horizon list (ascending; only the
order of the values matters). -/
def sortHorizons (yearsList : List ℤ) : List ℤ :=
  yearsList.insertionSort (· ≤ ·)

/-- `generate_forest_snapshots(years_list, mode, seed)` restricted to the
snapshot computation: validates the horizon list, then for each horizon in
sorted order produces the snapshot simulated from the base forest (`years = 0`
uses the base forest as-is). -/
def generateForestSnapshots (curves : Curves) (sigmaOf : String → String → ℚ)
    (noiseStream : ℕ → ℕ → ℚ) (mode : String) (seed : ℕ)
    (baseForest : List Tree) (yearsList : List ℤ) :
    Except String (List (ℤ × SnapshotDf)) :=
  if yearsList.isEmpty then .error "years_list cannot be empty"
  else if yearsList.any (fun y => decide (y < 0)) then
    .error "All years in years_list must be >= 0"
  else .ok <| (sortHorizons yearsList).map fun years =>
    (years,
      if years = 0 then { trees := baseForest, yearsAhead := 0 }
      else
        { trees := simulateForestYearsCore curves sigmaOf noiseStream mode
            seed baseForest years.toNat
          yearsAhead := years })

/-!
### Single-tree NN trajectories (the `dbh_history` bookkeeping of
`simulate_forest_years` in forest_snapshots_nn.py, lines 560–664, for one
tree)

`predictNN` stands for the neural network `predict_dbh_next_year_nn` as a
function of the current DBH (species and plot fixed for the tree).
-/

/-- DBH after `n` one-year `nn_state` steps. -/
def dbhAfterYearsNN (predictNN : ℚ → ℚ) (simulationMode : String)
    (epsilonCm : ℚ) (curves : Curves) (species plot : String)
    (clipLow clipHigh : ℚ) (hybridOut : ℚ → ℚ) (d0 : ℚ) : ℕ → ℚ
  | 0 => d0
  | n + 1 =>
    let d := dbhAfterYearsNN predictNN simulationMode epsilonCm curves species
      plot clipLow clipHigh hybridOut d0 n
    simulateTreeOneYearNN d (predictNN d) simulationMode epsilonCm curves
      species plot clipLow clipHigh (hybridOut d) true 0

/-- The per-tree `dbh_history` list `[year0, ..., yearN]`. -/
def dbhHistoryNN (predictNN : ℚ → ℚ) (simulationMode : String)
    (epsilonCm : ℚ) (curves : Curves) (species plot : String)
    (clipLow clipHigh : ℚ) (hybridOut : ℚ → ℚ) (d0 : ℚ) (years : ℕ) :
    List ℚ :=
  (List.range (years + 1)).map
    (dbhAfterYearsNN predictNN simulationMode epsilonCm curves species plot
      clipLow clipHigh hybridOut d0)

/-!
### Concrete fixtures used by witnesses and counterexamples
-/

/-- A small curve dictionary in the shape produced by the fitter. -/
def curvesW : Curves :=
  [("oak|Upper",
    { bins := [(5, 1), (15, 2)], fallbackLevel := "species_plot",
      nSamples := 41 })]

/-- A curve dictionary whose first entry is a group-level curve and whose
only global-level curve comes second; used against the unseen-species
fallback. -/
def curvesCE : Curves :=
  [("oak|Upper",
    { bins := [(10, 2)], fallbackLevel := "species_plot", nSamples := 50 }),
   ("pine|Lower",
    { bins := [(10, 1)], fallbackLevel := "global", nSamples := 10 })]

/-- A history whose consecutive changes are all below the tolerance from
year 1 on while the diameters drift away from the year-1 value. -/
def histCE : List ℚ :=
  [5, 5, 5 + 9 / 10000000, 5 - 9 / 10000000]

/-- A training table with a 50-observation group and a 10-observation group,
for the default threshold of 40. -/
def dfW : List Obs :=
  List.replicate 50 ⟨10, "speciesA", "plotX", 1⟩ ++
    List.replicate 10 ⟨10, "speciesB", "plotX", 1⟩

/-- Five observations of one well-sampled group whose last diameter bin has
a larger mean growth than the bin before it. -/
def obsCE : List Obs :=
  [⟨5, "oak", "Upper", 1⟩, ⟨15, "oak", "Upper", 1⟩, ⟨25, "oak", "Upper", 1⟩,
   ⟨35, "oak", "Upper", 1⟩, ⟨45, "oak", "Upper", 5⟩]

/-- A one-curve dictionary, a constant sigma table and noise stream, and a
one-tree base forest for exercising the snapshot engine. -/
def curvesH : Curves :=
  [("oak|Upper",
    { bins := [(10, 1 / 2)], fallbackLevel := "species_plot",
      nSamples := 41 })]

/-- Constant sigma table for the snapshot fixtures. -/
def sigmaH : String → String → ℚ := fun _ _ => 0

/-- Constant noise stream for the snapshot fixtures. -/
def noiseH : ℕ → ℕ → ℚ := fun _ _ => 0

/-- One-tree base forest for the snapshot fixtures. -/
def baseH : List Tree :=
  [{ treeId := 0, species := "oak", plot := "Upper", dbh := 2 }]

/-- The snapshot the engine produces for horizon `y` over the fixtures. -/
def snapH (y : ℤ) : SnapshotDf :=
  if y = 0 then { trees := baseH, yearsAhead := 0 }
  else
    { trees := simulateForestYearsCore curvesH sigmaH noiseH "baseline" 0
        baseH y.toNat
      yearsAhead := y }

/-- The full snapshot association list over the fixtures. -/
def outH (yearsList : List ℤ) : List (ℤ × SnapshotDf) :=
  (sortHorizons yearsList).map fun y => (y, snapH y)

/-!
## Shared lemmas
-/

/-- The per-bin estimate of `_fit_bins` is clamped to `≥ 0`. -/
theorem fitBinValue_nonneg (binData : List ℚ) (trimFraction : ℚ) :
    0 ≤ fitBinValue binData trimFraction :=
  le_max_left 0 _

/-- Every bin value produced by `_fit_bins` is clamped to `≥ 0`. -/
theorem fitBins_nonneg (df : List Obs) (binEdges : List ℚ) (trimFraction : ℚ) :
    ∀ b ∈ fitBins df binEdges trimFraction, 0 ≤ b.2 := by
  intro b hb
  rw [fitBins, List.mem_filterMap] at hb
  obtain ⟨e, -, he⟩ := hb
  dsimp only at he
  split at he
  · exact absurd he (by simp)
  · rw [Option.some.injEq] at he
    rw [← he]
    exact fitBinValue_nonneg _ _

/-- The interpolator of `_create_interpolator` returns a nonnegative value
whenever every stored bin value is nonnegative (for two or more bins the
value is explicitly clamped with `max(0.0, ...)`; for a single bin the stored
value itself is returned). -/
theorem createInterpolator_nonneg (binsData : List (ℚ × ℚ))
    (applyGuardrail : Bool) (x : ℚ)
    (hb : ∀ b ∈ binsData, 0 ≤ b.2) :
    0 ≤ createInterpolator binsData applyGuardrail x := by
  match binsData with
  | [] => simp [createInterpolator]
  | [b] => exact hb b (by simp)
  | b1 :: b2 :: rest =>
    simp only [createInterpolator]
    split
    · exact le_max_left 0 _
    · split
      · exact le_max_left 0 _
      · exact le_max_left 0 _

/-- Whatever `lookupCurve` returns is one of the stored curves. -/
theorem lookupCurve_mem {species plot : String} {curves : Curves}
    {kv : String × CurveInfo} (h : lookupCurve species plot curves = some kv) :
    kv ∈ curves := by
  unfold lookupCurve at h
  cases hf : curves.find? (fun kv => decide (kv.1 = species ++ "|" ++ plot))
    with
  | some kv1 =>
    rw [hf, Option.some.injEq] at h
    rw [← h]
    exact List.mem_of_find?_eq_some hf
  | none =>
    rw [hf] at h
    cases hf2 : curves.find? (fun kv => strStartsWith kv.1 (species ++ "|")) with
    | some kv2 =>
      rw [hf2, Option.some.injEq] at h
      rw [← h]
      exact List.mem_of_find?_eq_some hf2
    | none =>
      rw [hf2] at h
      exact List.mem_of_mem_head? h

/-- `predict_baseline_delta` returns a nonnegative value whenever every
stored curve has nonnegative bin values, at every fallback level. -/
theorem predictBaselineDelta_nonneg (prevDbhCm : ℚ) (species plot : String)
    (curves : Curves)
    (hc : ∀ kv ∈ curves, ∀ b ∈ kv.2.bins, 0 ≤ b.2) :
    0 ≤ predictBaselineDelta prevDbhCm species plot curves := by
  unfold predictBaselineDelta
  cases hl : lookupCurve species plot curves with
  | none => exact le_refl 0
  | some kv =>
    exact createInterpolator_nonneg _ _ _ (hc kv (lookupCurve_mem hl))

/-!
## C1 — no growth rule ever shrinks a tree
-/

/-- C1: for every GrowthRule variant (`deterministic_baseline` =
`predict_dbh_next_year_sim` mode `"baseline"`, `baseline_stochastic`,
`hybrid`, `hard_floor` = `"hard0"`, `epsilon_floor` = `"epsilon"` with a
nonnegative `epsilon_cm`) and every input diameter, species, plot, model
prediction and noise draw, the next diameter is `≥` the previous one. -/
theorem growth_rules_never_shrink
    (prevDbh : ℚ) (species plot : String) (curves : Curves)
    (sigma noiseDraw nextDbhPred epsilonCm clipLow clipHigh
      hybridModelOut : ℚ)
    (heps : 0 ≤ epsilonCm) :
    prevDbh ≤ predictDbhNextYearSim prevDbh species plot "baseline" curves
        sigma noiseDraw ∧
    prevDbh ≤ predictDbhNextYearSim prevDbh species plot
        "baseline_stochastic" curves sigma noiseDraw ∧
    prevDbh ≤ simulateTreeOneYearNN prevDbh nextDbhPred "hybrid" epsilonCm
        curves species plot clipLow clipHigh hybridModelOut true 0 ∧
    prevDbh ≤ simulateTreeOneYearNN prevDbh nextDbhPred "hard0" epsilonCm
        curves species plot clipLow clipHigh hybridModelOut true 0 ∧
    prevDbh ≤ simulateTreeOneYearNN prevDbh nextDbhPred "epsilon" epsilonCm
        curves species plot clipLow clipHigh hybridModelOut true 0 := by
  refine ⟨le_add_of_nonneg_right (le_max_left 0 _),
    le_add_of_nonneg_right (le_max_left 0 _), ?_, ?_, ?_⟩
  · simp only [simulateTreeOneYearNN, String.reduceEq, reduceIte, if_true]
    exact le_add_of_nonneg_right (le_max_left 0 _)
  · simp only [simulateTreeOneYearNN, String.reduceEq, reduceIte, if_true]
    exact le_add_of_nonneg_right (le_max_left 0 _)
  · simp only [simulateTreeOneYearNN, String.reduceEq, reduceIte, if_true]
    split
    · exact le_add_of_nonneg_right heps
    · next h => exact le_add_of_nonneg_right (by linarith [not_lt.mp h])

/-- C1 witness at a concrete input (`epsilon_cm = 0.02`). -/
theorem growth_rules_never_shrink_witness :
    0 ≤ (2 / 100 : ℚ) ∧
    ((30 : ℚ) ≤ predictDbhNextYearSim 30 "oak" "Upper" "baseline" [] 1 0 ∧
     (30 : ℚ) ≤ predictDbhNextYearSim 30 "oak" "Upper" "baseline_stochastic"
        [] 1 0 ∧
     (30 : ℚ) ≤ simulateTreeOneYearNN 30 29 "hybrid" (2 / 100) [] "oak"
        "Upper" (-1) 1 0 true 0 ∧
     (30 : ℚ) ≤ simulateTreeOneYearNN 30 29 "hard0" (2 / 100) [] "oak"
        "Upper" (-1) 1 0 true 0 ∧
     (30 : ℚ) ≤ simulateTreeOneYearNN 30 29 "epsilon" (2 / 100) [] "oak"
        "Upper" (-1) 1 0 true 0) :=
  ⟨by norm_num,
   growth_rules_never_shrink 30 "oak" "Upper" [] 1 0 29 (2 / 100) (-1) 1 0
     (by norm_num)⟩

/-!
## C9 — `simulate_forest_years` input validation
-/

/-- C9: `simulate_forest_years` raises `ValueError` for negative `years`
(no simulation runs), and for `years = 0` returns the base population with
every tree's diameter unchanged and a `years_ahead` column equal to 0. -/
theorem simulate_forest_years_validation
    (curves : Curves) (sigmaOf : String → String → ℚ)
    (noiseStream : ℕ → ℕ → ℚ) (mode : String) (seed : ℕ)
    (baseForestDf : List Tree) (years : ℤ) :
    (years < 0 →
      simulateForestYears curves sigmaOf noiseStream mode seed baseForestDf
        years = .error "years must be non-negative") ∧
    (years = 0 →
      simulateForestYears curves sigmaOf noiseStream mode seed baseForestDf
        years = .ok { trees := baseForestDf, yearsAhead := 0 }) := by
  constructor
  · intro h
    simp [simulateForestYears, h]
  · intro h
    subst h
    simp [simulateForestYears]

/-- C9 witness at concrete inputs `years = -3` and `years = 0`. -/
theorem simulate_forest_years_validation_witness :
    ((-3 : ℤ) < 0 ∧
      simulateForestYears [] (fun _ _ => 0) (fun _ _ => 0) "baseline" 0
        [⟨0, "oak", "Upper", 30⟩] (-3) =
        .error "years must be non-negative") ∧
    ((0 : ℤ) = 0 ∧
      simulateForestYears [] (fun _ _ => 0) (fun _ _ => 0) "baseline" 0
        [⟨0, "oak", "Upper", 30⟩] 0 =
        .ok { trees := [⟨0, "oak", "Upper", 30⟩], yearsAhead := 0 }) :=
  ⟨⟨by norm_num,
    (simulate_forest_years_validation [] (fun _ _ => 0) (fun _ _ => 0)
      "baseline" 0 [⟨0, "oak", "Upper", 30⟩] (-3)).1 (by norm_num)⟩,
   ⟨rfl,
    (simulate_forest_years_validation [] (fun _ _ => 0) (fun _ _ => 0)
      "baseline" 0 [⟨0, "oak", "Upper", 30⟩] 0).2 rfl⟩⟩

/-!
## C10 — deterministic baseline mode: no noise, no clamping
-/

/-- C10: in deterministic `"baseline"` mode, `predict_delta_sim` reports
noise exactly 0, `delta_used` equal to the baseline-curve delta, and
`was_clamped = False`; the baseline lookup never returns a negative value
(the hypothesis holds for every fitted curve by `fitBins_nonneg`). -/
theorem baseline_mode_no_noise_no_clamp
    (prevDbhCm : ℚ) (species plot : String) (curves : Curves)
    (sigma noiseDraw : ℚ)
    (hc : ∀ kv ∈ curves, ∀ b ∈ kv.2.bins, 0 ≤ b.2) :
    (predictDeltaSim prevDbhCm species plot "baseline" curves sigma
        noiseDraw).noise = 0 ∧
    (predictDeltaSim prevDbhCm species plot "baseline" curves sigma
        noiseDraw).deltaUsed =
      (predictDeltaSim prevDbhCm species plot "baseline" curves sigma
        noiseDraw).deltaBase ∧
    (predictDeltaSim prevDbhCm species plot "baseline" curves sigma
        noiseDraw).wasClamped = false ∧
    0 ≤ (predictDeltaSim prevDbhCm species plot "baseline" curves sigma
        noiseDraw).deltaBase := by
  have hbase := predictBaselineDelta_nonneg prevDbhCm species plot curves hc
  refine ⟨?_, ?_, ?_, ?_⟩
  · simp only [predictDeltaSim]
    rw [if_neg (by decide)]
  · simp only [predictDeltaSim]
    rw [if_neg (by decide), add_zero]
    exact max_eq_right hbase
  · simp only [predictDeltaSim]
    rw [if_neg (by decide), add_zero, decide_eq_false_iff_not]
    exact not_lt.mpr hbase
  · simpa only [predictDeltaSim] using hbase

/-- C10 witness on a concrete fitted-style curve dictionary. -/
theorem baseline_mode_no_noise_no_clamp_witness :
    (∀ kv ∈ curvesW, ∀ b ∈ kv.2.bins, 0 ≤ b.2) ∧
    ((predictDeltaSim 10 "oak" "Upper" "baseline" curvesW 3 7).noise = 0 ∧
     (predictDeltaSim 10 "oak" "Upper" "baseline" curvesW 3 7).deltaUsed =
       (predictDeltaSim 10 "oak" "Upper" "baseline" curvesW 3 7).deltaBase ∧
     (predictDeltaSim 10 "oak" "Upper" "baseline" curvesW 3 7).wasClamped
       = false ∧
     0 ≤ (predictDeltaSim 10 "oak" "Upper" "baseline" curvesW 3 7).deltaBase)
    :=
  ⟨by decide,
   baseline_mode_no_noise_no_clamp 10 "oak" "Upper" curvesW 3 7 (by decide)⟩

/-!
## C5 — fallback hierarchy of the curve fitter
-/

/-- C5: the curve of a `(species, plot)` group is fitted from the group's own
rows with group-level fallback (`"species_plot"`) when the group reaches the
minimum-sample threshold; otherwise from the species-only aggregation when
that reaches the threshold (level `"species"`); otherwise from all
observations (level `"global"`). -/
theorem fit_baseline_fallback_hierarchy
    (dfTrain : List Obs) (minSamples : ℕ) (binWidth trimFraction : ℚ)
    (species plot : String) :
    (minSamples ≤
        (dfTrain.filter
          (fun o => o.species = species ∧ o.plot = plot)).length →
      fitCurveForGroup dfTrain minSamples binWidth trimFraction species plot
        = { bins := fitBins
              (dfTrain.filter (fun o => o.species = species ∧ o.plot = plot))
              (computeBinEdges dfTrain binWidth) trimFraction
            fallbackLevel := "species_plot"
            nSamples :=
              (dfTrain.filter
                (fun o => o.species = species ∧ o.plot = plot)).length }) ∧
    ((dfTrain.filter
        (fun o => o.species = species ∧ o.plot = plot)).length < minSamples →
      (dfTrain.filter (fun o => o.species = species)) ≠ [] →
      minSamples ≤ (dfTrain.filter (fun o => o.species = species)).length →
      fitCurveForGroup dfTrain minSamples binWidth trimFraction species plot
        = { bins := fitBins (dfTrain.filter (fun o => o.species = species))
              (computeBinEdges dfTrain binWidth) trimFraction
            fallbackLevel := "species"
            nSamples :=
              (dfTrain.filter (fun o => o.species = species)).length }) ∧
    ((dfTrain.filter
        (fun o => o.species = species ∧ o.plot = plot)).length < minSamples →
      (dfTrain.filter (fun o => o.species = species)).length < minSamples →
      fitCurveForGroup dfTrain minSamples binWidth trimFraction species plot
        = { bins := fitBins dfTrain (computeBinEdges dfTrain binWidth)
              trimFraction
            fallbackLevel := "global"
            nSamples := dfTrain.length }) := by
  refine ⟨?_, ?_, ?_⟩
  · intro h
    simp only [fitCurveForGroup]
    rw [if_pos h]
  · intro h1 h2 h3
    simp only [fitCurveForGroup]
    rw [if_neg (not_le.mpr h1),
      if_pos ⟨fun h0 => h2 (List.length_eq_zero.mp h0), h3⟩]
  · intro h1 h4
    simp only [fitCurveForGroup]
    rw [if_neg (not_le.mpr h1), if_neg]
    rintro ⟨-, hle⟩
    exact absurd hle (not_le.mpr h4)

/-- C5 witness: a 50-observation group at threshold 40 is fitted from its own
rows with group-level fallback, and the 10-observation group of the same
table is not fitted at group level. -/
theorem fit_baseline_fallback_hierarchy_witness :
    40 ≤ (dfW.filter
      (fun o => o.species = "speciesA" ∧ o.plot = "plotX")).length ∧
    fitCurveForGroup dfW 40 10 (1 / 10) "speciesA" "plotX"
      = { bins := fitBins
            (dfW.filter (fun o => o.species = "speciesA" ∧ o.plot = "plotX"))
            (computeBinEdges dfW 10) (1 / 10)
          fallbackLevel := "species_plot"
          nSamples :=
            (dfW.filter
              (fun o => o.species = "speciesA" ∧ o.plot = "plotX")).length } ∧
    (fitCurveForGroup dfW 40 10 (1 / 10) "speciesA" "plotX").fallbackLevel
      = "species_plot" ∧
    (fitCurveForGroup dfW 40 10 (1 / 10) "speciesB" "plotX").fallbackLevel
      = "global" :=
  ⟨by decide,
   (fit_baseline_fallback_hierarchy dfW 40 10 (1 / 10) "speciesA" "plotX").1
     (by decide),
   by decide, by decide⟩

/-!
## C8 — unseen species falls back to the first curve, not the global one
-/

/-- C8 counterexample: in a curve dictionary whose first entry is a
group-level curve and whose only global-level curve is a later entry, the
lookup for an unseen species returns the first curve's value (2) and not the
global-level curve's value (1), refuting the claim that it degrades to the
global-level curve. -/
theorem unseen_species_global_fallback_counterexample :
    (∀ e ∈ curvesCE, e.1 ≠ "birch" ++ "|" ++ "Upper") ∧
    (∀ e ∈ curvesCE, strStartsWith e.1 ("birch" ++ "|") = false) ∧
    (∃ e ∈ curvesCE, e.2.fallbackLevel = "global" ∧ curveFn e.2 10 = 1) ∧
    predictBaselineDelta 10 "birch" "Upper" curvesCE = 2 ∧ (2 : ℚ) ≠ 1 := by
  decide

/-- C8 amended: a lookup whose species matches no stored key (no exact key
and no key with the `species|` prefix) silently returns the first curve of
the dictionary — an arbitrary curve used as a global proxy, not necessarily
the global-level curve — and never fails the run. -/
theorem unseen_species_falls_back_to_first_curve
    (prevDbhCm : ℚ) (species plot : String) (kv0 : String × CurveInfo)
    (rest : Curves)
    (hexact : ∀ e ∈ kv0 :: rest, e.1 ≠ species ++ "|" ++ plot)
    (hpre : ∀ e ∈ kv0 :: rest, strStartsWith e.1 (species ++ "|") = false) :
    predictBaselineDelta prevDbhCm species plot (kv0 :: rest)
      = curveFn kv0.2 prevDbhCm := by
  have h1 : (kv0 :: rest).find?
      (fun kv => decide (kv.1 = species ++ "|" ++ plot)) = none :=
    List.find?_eq_none.mpr (fun e he => by simpa using hexact e he)
  have h2 : (kv0 :: rest).find?
      (fun kv => strStartsWith kv.1 (species ++ "|")) = none :=
    List.find?_eq_none.mpr (fun e he => by simpa using hpre e he)
  unfold predictBaselineDelta lookupCurve
  rw [h1, h2]
  rfl

/-- C8 amended-claim witness at the concrete dictionary of the
counterexample. -/
theorem unseen_species_falls_back_to_first_curve_witness :
    (∀ e ∈ curvesCE, e.1 ≠ "birch" ++ "|" ++ "Upper") ∧
    (∀ e ∈ curvesCE, strStartsWith e.1 ("birch" ++ "|") = false) ∧
    predictBaselineDelta 10 "birch" "Upper" curvesCE
      = curveFn { bins := [(10, 2)], fallbackLevel := "species_plot",
                  nSamples := 50 } 10 :=
  ⟨by decide, by decide,
   unseen_species_falls_back_to_first_curve 10 "birch" "Upper"
     ("oak|Upper",
       { bins := [(10, 2)], fallbackLevel := "species_plot", nSamples := 50 })
     [("pine|Lower",
       { bins := [(10, 1)], fallbackLevel := "global", nSamples := 10 })]
     (by decide) (by decide)⟩

/-!
## C2 — what the stuck-tree detector actually reports
-/

/-- Characterization of `List.find?` on an interval of naturals: it returns
`some k` exactly when `k` is in the interval, satisfies the predicate, and
no earlier interval element does. -/
theorem find?_range'_some (p : ℕ → Bool) :
    ∀ (n s k : ℕ),
      (List.range' s n).find? p = some k ↔
        s ≤ k ∧ k < s + n ∧ p k = true ∧
          ∀ y, s ≤ y → y < k → p y = false := by
  intro n
  induction n with
  | zero =>
    intro s k
    constructor
    · intro h
      exact absurd h (by simp)
    · rintro ⟨h1, h2, -, -⟩
      omega
  | succ n ih =>
    intro s k
    rw [List.range'_succ]
    cases hps : p s with
    | true =>
      rw [List.find?_cons_of_pos _ hps]
      constructor
      · intro h
        rw [Option.some.injEq] at h
        subst h
        exact ⟨le_refl s, by omega, hps, fun y hy1 hy2 => absurd hy1 (by omega)⟩
      · rintro ⟨h1, h2, h3, h4⟩
        rcases eq_or_lt_of_le h1 with rfl | hlt
        · rfl
        · rw [h4 s (le_refl s) hlt] at hps
          exact absurd hps (by simp)
    | false =>
      rw [List.find?_cons_of_neg _ (by simp [hps])]
      rw [ih (s + 1) k]
      constructor
      · rintro ⟨h1, h2, h3, h4⟩
        refine ⟨by omega, by omega, h3, fun y hy1 hy2 => ?_⟩
        rcases eq_or_lt_of_le hy1 with rfl | hlt
        · exact hps
        · exact h4 y (by omega) hy2
      · rintro ⟨h1, h2, h3, h4⟩
        have hks : s ≠ k := by
          rintro rfl
          rw [hps] at h3
          exact absurd h3 (by simp)
        exact ⟨by omega, by omega, h3, fun y hy1 hy2 => h4 y (by omega) hy2⟩

/-- The Bool-level stuck test agrees with its Prop form. -/
theorem isPermanentlyStuckAt_iff (hist : List ℚ) (y : ℕ) :
    isPermanentlyStuckAt hist y = true ↔ codeStuckProp hist y := by
  unfold isPermanentlyStuckAt codeStuckProp
  rw [Bool.and_eq_true, decide_eq_true_eq, List.all_eq_true]
  constructor
  · rintro ⟨h1, h2⟩
    refine ⟨h1, fun j hj1 hj2 => ?_⟩
    have hm : j ∈ List.range' (y + 1) (hist.length - (y + 1)) := by
      rw [List.mem_range'_1]
      omega
    exact decide_eq_true_eq.mp (h2 j hm)
  · rintro ⟨h1, h2⟩
    refine ⟨h1, fun j hj => ?_⟩
    rw [List.mem_range'_1] at hj
    exact decide_eq_true (h2 j (by omega) (by omega))

/-- `yearFirstStuck` returns `some k` exactly when `k` is the first year
satisfying the detector's anchored condition. -/
theorem yearFirstStuck_some_iff (hist : List ℚ) (k : ℕ) :
    yearFirstStuck hist = some k ↔
      2 ≤ hist.length ∧ 1 ≤ k ∧ k < hist.length ∧ codeStuckProp hist k ∧
        ∀ y, 1 ≤ y → y < k → ¬ codeStuckProp hist y := by
  unfold yearFirstStuck
  split
  · next hlt =>
    constructor
    · intro h
      exact absurd h (by simp)
    · rintro ⟨h2, -⟩
      omega
  · next hge =>
    rw [find?_range'_some]
    constructor
    · rintro ⟨h1, h2, h3, h4⟩
      refine ⟨by omega, h1, by omega, (isPermanentlyStuckAt_iff hist k).mp h3,
        fun y hy1 hy2 hc => ?_⟩
      have hfalse := h4 y hy1 hy2
      rw [← isPermanentlyStuckAt_iff hist y] at hc
      rw [hfalse] at hc
      exact absurd hc (by simp)
    · rintro ⟨h0, h1, h2, h3, h4⟩
      refine ⟨h1, by omega, (isPermanentlyStuckAt_iff hist k).mpr h3,
        fun y hy1 hy2 => ?_⟩
      rw [Bool.eq_false_iff]
      intro ht
      exact h4 y hy1 hy2 ((isPermanentlyStuckAt_iff hist y).mp ht)

/-- C2 counterexample: on the history `[5, 5, 5 + 9e-7, 5 - 9e-7]` the
detector reports `year_first_plateaued = 1`, yet the spec's consecutive-diff
condition fails at year 1 (and at every year): the changes into years 1 and 2
are below tolerance but the change into year 3 is `1.8e-6 ≥ 1e-6`.  The
detector's actual condition compares later diameters to the year-1 anchor,
all of which stay within `9e-7`. -/
theorem stuck_detector_spec_rule_counterexample :
    yearFirstStuck histCE = some 1 ∧ specPlateauedBy histCE 1 = false ∧
    histCE.length = 4 := by
  have hstuck1 : isPermanentlyStuckAt histCE 1 = true := by
    rw [isPermanentlyStuckAt, Bool.and_eq_true, decide_eq_true_eq,
      List.all_eq_true]
    constructor
    · norm_num [histCE, ratAbs, TOL]
    · intro j hj
      fin_cases hj <;>
        · rw [decide_eq_true_eq]
          norm_num [histCE, ratAbs, TOL]
  refine ⟨?_, ?_, rfl⟩
  · rw [yearFirstStuck, if_neg (by decide),
      show List.range' 1 (histCE.length - 1) = 1 :: [2, 3] from rfl,
      List.find?_cons_of_pos _ hstuck1]
  · rw [Bool.eq_false_iff]
    intro htrue
    rw [specPlateauedBy, Bool.and_eq_true, Bool.and_eq_true,
      List.all_eq_true] at htrue
    obtain ⟨-, hall⟩ := htrue
    have h3 := hall 3 (by decide)
    rw [decide_eq_true_eq] at h3
    exact absurd h3 (by norm_num [histCE, ratAbs, TOL])

/-- C2 amended: the detector reports `year_first_plateaued = k` exactly when
`k` is the first year whose change is below `1e-6` and whose every later
diameter stays within `1e-6` of the year-`k` diameter (deviation from the
anchor year, not consecutive changes); and for an 11-value history whose
final 5 yearly changes are zero while the changes of years 1–5 are at least
the tolerance, the reported year is 6, the first constant year, not later. -/
theorem stuck_detector_reports_anchored_first_year
    (hist : List ℚ) (k : ℕ) (h : List ℚ)
    (hlen : h.length = 11)
    (hconst : ∀ j, 6 ≤ j → j ≤ 10 → h.getD j 0 = h.getD 5 0)
    (hgrow : ∀ y, 1 ≤ y → y ≤ 5 → TOL ≤ ratAbs (h.getD y 0 - h.getD (y - 1) 0)) :
    (yearFirstStuck hist = some k ↔
      2 ≤ hist.length ∧ 1 ≤ k ∧ k < hist.length ∧ codeStuckProp hist k ∧
        ∀ y, 1 ≤ y → y < k → ¬ codeStuckProp hist y) ∧
    yearFirstStuck h = some 6 := by
  refine ⟨yearFirstStuck_some_iff hist k, ?_⟩
  rw [yearFirstStuck_some_iff]
  have h65 : h.getD 6 0 = h.getD 5 0 := hconst 6 (by omega) (by omega)
  refine ⟨by omega, by omega, by omega, ⟨?_, ?_⟩, ?_⟩
  · show ratAbs (h.getD 6 0 - h.getD 5 0) < TOL
    rw [h65, sub_self]
    norm_num [ratAbs, TOL]
  · intro j hj1 hj2
    rw [hlen] at hj2
    rw [hconst j (by omega) (by omega), h65, sub_self]
    norm_num [ratAbs, TOL]
  · intro y hy1 hy2
    rintro ⟨hc1, -⟩
    exact absurd hc1 (not_lt.mpr (hgrow y hy1 (by omega)))

/-- C2 amended-claim witness: a concrete growing-then-constant history of 11
values is reported stuck at year 6. -/
theorem stuck_detector_reports_anchored_first_year_witness :
    ([(1 : ℚ), 2, 3, 4, 5, 6, 6, 6, 6, 6, 6].length = 11 ∧
      (∀ j, 6 ≤ j → j ≤ 10 →
        [(1 : ℚ), 2, 3, 4, 5, 6, 6, 6, 6, 6, 6].getD j 0 =
        [(1 : ℚ), 2, 3, 4, 5, 6, 6, 6, 6, 6, 6].getD 5 0) ∧
      (∀ y, 1 ≤ y → y ≤ 5 →
        TOL ≤ ratAbs ([(1 : ℚ), 2, 3, 4, 5, 6, 6, 6, 6, 6, 6].getD y 0 -
          [(1 : ℚ), 2, 3, 4, 5, 6, 6, 6, 6, 6, 6].getD (y - 1) 0))) ∧
    yearFirstStuck [(1 : ℚ), 2, 3, 4, 5, 6, 6, 6, 6, 6, 6] = some 6 := by
  have hlen : [(1 : ℚ), 2, 3, 4, 5, 6, 6, 6, 6, 6, 6].length = 11 := by decide
  have hconst : ∀ j, 6 ≤ j → j ≤ 10 →
      [(1 : ℚ), 2, 3, 4, 5, 6, 6, 6, 6, 6, 6].getD j 0 =
      [(1 : ℚ), 2, 3, 4, 5, 6, 6, 6, 6, 6, 6].getD 5 0 := by
    intro j h1 h2
    interval_cases j <;> rfl
  have hgrow : ∀ y, 1 ≤ y → y ≤ 5 →
      TOL ≤ ratAbs ([(1 : ℚ), 2, 3, 4, 5, 6, 6, 6, 6, 6, 6].getD y 0 -
        [(1 : ℚ), 2, 3, 4, 5, 6, 6, 6, 6, 6, 6].getD (y - 1) 0) := by
    intro y h1 h2
    interval_cases y <;> norm_num [ratAbs, TOL]
  exact ⟨⟨hlen, hconst, hgrow⟩,
    (stuck_detector_reports_anchored_first_year [] 0 _ hlen hconst hgrow).2⟩

/-!
## C6 — epsilon floor: exact growth, never flagged
-/

/-- The epsilon rule on a tree whose prediction is below its current
diameter: the diameter grows by exactly `epsilon_cm`. -/
theorem simulateTreeOneYearNN_epsilon_neg (d pred eps : ℚ) (curves : Curves)
    (species plot : String) (clipLow clipHigh hybridOut : ℚ) (h : pred < d) :
    simulateTreeOneYearNN d pred "epsilon" eps curves species plot clipLow
      clipHigh hybridOut true 0 = d + eps := by
  simp only [simulateTreeOneYearNN, String.reduceEq, reduceIte, if_true]
  rw [if_pos (by linarith)]

/-- Closed form of the epsilon-rule trajectory when the model predicts a
negative delta at every state. -/
theorem dbhAfterYearsNN_epsilon (predictNN : ℚ → ℚ) (eps : ℚ)
    (curves : Curves) (species plot : String) (clipLow clipHigh : ℚ)
    (hybridOut : ℚ → ℚ) (d0 : ℚ) (hneg : ∀ d, predictNN d < d) :
    ∀ n : ℕ, dbhAfterYearsNN predictNN "epsilon" eps curves species plot
      clipLow clipHigh hybridOut d0 n = d0 + n * eps := by
  intro n
  induction n with
  | zero =>
    simp [dbhAfterYearsNN]
  | succ n ih =>
    simp only [dbhAfterYearsNN]
    rw [ih, simulateTreeOneYearNN_epsilon_neg _ _ _ _ _ _ _ _ _ (hneg _)]
    push_cast
    ring

/-- Indexing the recorded history returns the state after that many years. -/
theorem dbhHistoryNN_getD (predictNN : ℚ → ℚ) (simulationMode : String)
    (epsilonCm : ℚ) (curves : Curves) (species plot : String)
    (clipLow clipHigh : ℚ) (hybridOut : ℚ → ℚ) (d0 : ℚ) (years k : ℕ)
    (hk : k ≤ years) :
    (dbhHistoryNN predictNN simulationMode epsilonCm curves species plot
      clipLow clipHigh hybridOut d0 years).getD k 0 =
    dbhAfterYearsNN predictNN simulationMode epsilonCm curves species plot
      clipLow clipHigh hybridOut d0 k := by
  unfold dbhHistoryNN
  rw [List.getD_eq_getElem?_getD, List.getElem?_map,
    List.getElem?_range (by omega)]
  rfl

/-- C6: under the epsilon rule with `epsilon_cm = 0.02`, a tree whose model
prediction is below its current diameter in every state grows by exactly
`10 × 0.02 = 0.2` over 10 years, and its history is never reported by the
stuck-tree detector (each yearly change of `0.02` is at or above the `1e-6`
tolerance). -/
theorem epsilon_floor_exact_growth_never_flagged
    (predictNN : ℚ → ℚ) (curves : Curves) (species plot : String)
    (clipLow clipHigh : ℚ) (hybridOut : ℚ → ℚ) (d0 : ℚ) (treeId : ℕ)
    (hneg : ∀ d, predictNN d < d) :
    (dbhHistoryNN predictNN "epsilon" (2 / 100) curves species plot clipLow
      clipHigh hybridOut d0 10).getD 10 0 = d0 + 10 * (2 / 100) ∧
    (10 : ℚ) * (2 / 100) = 2 / 10 ∧
    detectStuckTrees [(treeId,
      dbhHistoryNN predictNN "epsilon" (2 / 100) curves species plot clipLow
        clipHigh hybridOut d0 10)] = [] := by
  have hgetD : ∀ k, k ≤ 10 →
      (dbhHistoryNN predictNN "epsilon" (2 / 100) curves species plot clipLow
        clipHigh hybridOut d0 10).getD k 0 = d0 + k * (2 / 100) := by
    intro k hk
    rw [dbhHistoryNN_getD _ _ _ _ _ _ _ _ _ _ _ _ hk,
      dbhAfterYearsNN_epsilon _ _ _ _ _ _ _ _ _ hneg]
  have hlen : (dbhHistoryNN predictNN "epsilon" (2 / 100) curves species plot
      clipLow clipHigh hybridOut d0 10).length = 11 := by
    simp [dbhHistoryNN]
  have hnone : yearFirstStuck (dbhHistoryNN predictNN "epsilon" (2 / 100)
      curves species plot clipLow clipHigh hybridOut d0 10) = none := by
    rw [yearFirstStuck, hlen, if_neg (by norm_num)]
    apply List.find?_eq_none.mpr
    intro y hy
    rw [List.mem_range'_1] at hy
    rw [isPermanentlyStuckAt, Bool.and_eq_true, decide_eq_true_eq]
    rintro ⟨h1, -⟩
    have hdiff : (dbhHistoryNN predictNN "epsilon" (2 / 100) curves species
        plot clipLow clipHigh hybridOut d0 10).getD y 0 -
        (dbhHistoryNN predictNN "epsilon" (2 / 100) curves species plot
          clipLow clipHigh hybridOut d0 10).getD (y - 1) 0 = 2 / 100 := by
      rw [hgetD y (by omega), hgetD (y - 1) (by omega),
        Nat.cast_sub hy.1]
      push_cast
      ring
    rw [hdiff] at h1
    exact absurd h1 (by norm_num [ratAbs, TOL])
  refine ⟨?_, by norm_num, ?_⟩
  · exact hgetD 10 (le_refl 10)
  · simp [detectStuckTrees, hnone]

/-- C6 witness: a model that always predicts shrinkage, a tree starting at
`30` cm. -/
theorem epsilon_floor_exact_growth_never_flagged_witness :
    (∀ d : ℚ, d - 1 < d) ∧
    ((dbhHistoryNN (fun d => d - 1) "epsilon" (2 / 100) [] "oak" "Upper" (-1)
      1 (fun _ => 0) 30 10).getD 10 0 = 30 + 10 * (2 / 100) ∧
    (10 : ℚ) * (2 / 100) = 2 / 10 ∧
    detectStuckTrees [(7,
      dbhHistoryNN (fun d => d - 1) "epsilon" (2 / 100) [] "oak" "Upper" (-1)
        1 (fun _ => 0) 30 10)] = []) :=
  ⟨fun d => sub_one_lt d,
   epsilon_floor_exact_growth_never_flagged (fun d => d - 1) [] "oak" "Upper"
     (-1) 1 (fun _ => 0) 30 7 (fun d => sub_one_lt d)⟩

/-!
## C3 — guardrail shape invariants
-/

/-- Ceiling evaluation helper. -/
theorem int_ceil_eval (a : ℚ) (z : ℤ) (h1 : (z : ℚ) - 1 < a)
    (h2 : a ≤ z) : (⌈a⌉ : ℤ) = z :=
  Int.ceil_eq_iff.mpr ⟨h1, h2⟩

/-- Floor evaluation helper. -/
theorem int_floor_eval (a : ℚ) (z : ℤ) (h1 : (z : ℚ) ≤ a)
    (h2 : a < z + 1) : (⌊a⌋ : ℤ) = z :=
  Int.floor_eq_iff.mpr ⟨h1, h2⟩

/-- `npArange` once its element count is known. -/
theorem npArange_eval (start stop step : ℚ) (n : ℕ)
    (hn : (⌈(stop - start) / step⌉).toNat = n) :
    npArange start stop step =
      (List.range n).map (fun k => start + (k : ℚ) * step) := by
  rw [npArange, hn]

/-- The guardrail loop preserves length. -/
theorem guardLoop_length (s : ℕ) :
    ∀ (l : List ℚ) (i : ℕ) (p : ℚ), (guardLoop s i p l).length = l.length
  | [], _, _ => rfl
  | x :: xs, i, p => by
    simp only [guardLoop, List.length_cons]
    rw [guardLoop_length s xs]

/-- The guardrail loop preserves nonnegativity. -/
theorem guardLoop_nonneg (s : ℕ) :
    ∀ (l : List ℚ) (i : ℕ) (p : ℚ), 0 ≤ p → (∀ x ∈ l, 0 ≤ x) →
      ∀ y ∈ guardLoop s i p l, 0 ≤ y
  | [], _, _, _, _ => by simp [guardLoop]
  | x :: xs, i, p, hp, hl => by
    have hx : (0 : ℚ) ≤ x := hl x (by simp)
    have hx' : (0 : ℚ) ≤ if s ≤ i ∧ 1 ≤ i then min x p else x := by
      split
      · exact le_min hx hp
      · exact hx
    intro y hy
    simp only [guardLoop] at hy
    rcases List.mem_cons.mp hy with rfl | hy'
    · exact hx'
    · exact guardLoop_nonneg s xs (i + 1) _ hx'
        (fun z hz => hl z (List.mem_cons_of_mem _ hz)) y hy'

/-- Adjacent outputs of the guardrail loop are non-increasing from the start
index on. -/
theorem guardLoop_adj (s : ℕ) :
    ∀ (l : List ℚ) (i : ℕ) (p : ℚ) (j : ℕ), j + 1 < l.length →
      s ≤ i + j + 1 →
      (guardLoop s i p l).getD (j + 1) 0 ≤ (guardLoop s i p l).getD j 0
  | [], _, _, _, h, _ => absurd h (by simp)
  | [x], _, _, _, h, _ => absurd h (by simp)
  | x :: y :: l, i, p, 0, h, hs => by
    simp only [guardLoop, List.getD_cons_succ, List.getD_cons_zero]
    rw [if_pos ⟨by omega, by omega⟩]
    exact min_le_right _ _
  | x :: y :: l, i, p, j + 1, h, hs => by
    simp only [guardLoop, List.getD_cons_succ]
    exact guardLoop_adj s (y :: l) (i + 1) _ j
      (by simpa using Nat.lt_of_succ_lt_succ h) (by omega)

/-- `getD` through the final `np.maximum(0, ·)` map. -/
theorem getD_map_max0 (l : List ℚ) (k : ℕ) (hk : k < l.length) :
    (l.map (fun d => max 0 d)).getD k 0 = max 0 (l.getD k 0) := by
  rw [List.getD_eq_getElem?_getD, List.getElem?_map,
    List.getElem?_eq_getElem hk, List.getD_eq_getElem?_getD,
    List.getElem?_eq_getElem hk]
  rfl

/-- The two branch shapes of `applyHighDbhGuardrail` under the default
method, for nonempty inputs. -/
theorem applyHighDbhGuardrail_eq (binCenters deltaValues : List ℚ)
    (hc : binCenters ≠ []) (hd : deltaValues ≠ []) :
    applyHighDbhGuardrail binCenters deltaValues =
      if binCenters.length < 5 then
        guardLoop 1 0 0 (deltaValues.map (fun d => max 0 d))
      else
        (guardLoop (tailStartIdx binCenters (8 / 10)) 0 0
          (deltaValues.map (fun d => max 0 d))).map (fun d => max 0 d) := by
  rw [applyHighDbhGuardrail,
    if_neg (by
      rintro (h0 | h0) <;> simp_all [List.length_eq_zero]),
    if_pos rfl]

/-- C3 amended: every stored bin value of `_fit_bins` is `≥ 0`; the
guardrailed delta sequence used by the interpolator is `≥ 0` everywhere and
non-increasing from the tail start index (the 80th-percentile position
clamped to at least `max 2 (n/10)` and at most `n/2` tail bins; for fewer
than 5 bins the whole sequence is made non-increasing); and the curve's
lookup function returns `≥ 0` for every input and every fallback level.  The
stored bin list itself is not guardrailed (see the counterexample). -/
theorem guardrail_invariants
    (binCenters deltaValues : List ℚ) (hc : binCenters ≠ [])
    (hd : deltaValues ≠ []) (df : List Obs) (binEdges : List ℚ)
    (trimFraction : ℚ) (binsData : List (ℚ × ℚ)) (applyGuardrail : Bool)
    (x : ℚ) (hb : ∀ b ∈ binsData, 0 ≤ b.2) :
    (∀ b ∈ fitBins df binEdges trimFraction, 0 ≤ b.2) ∧
    (∀ v ∈ applyHighDbhGuardrail binCenters deltaValues, 0 ≤ v) ∧
    (∀ i, tailStartIdx binCenters (8 / 10) ≤ i → 1 ≤ i →
      i < (applyHighDbhGuardrail binCenters deltaValues).length →
      (applyHighDbhGuardrail binCenters deltaValues).getD i 0 ≤
        (applyHighDbhGuardrail binCenters deltaValues).getD (i - 1) 0) ∧
    0 ≤ createInterpolator binsData applyGuardrail x := by
  have hmapnn : ∀ z ∈ deltaValues.map (fun d => max 0 d), (0 : ℚ) ≤ z := by
    intro z hz
    obtain ⟨w, -, rfl⟩ := List.mem_map.mp hz
    exact le_max_left 0 w
  refine ⟨fitBins_nonneg df binEdges trimFraction, ?_, ?_,
    createInterpolator_nonneg binsData applyGuardrail x hb⟩
  · rw [applyHighDbhGuardrail_eq _ _ hc hd]
    split
    · exact guardLoop_nonneg 1 _ 0 0 le_rfl hmapnn
    · intro v hv
      obtain ⟨w, -, rfl⟩ := List.mem_map.mp hv
      exact le_max_left 0 w
  · intro i hstart h1 hlen
    rw [applyHighDbhGuardrail_eq _ _ hc hd] at hlen ⊢
    have hi : i - 1 + 1 = i := by omega
    by_cases hlt : binCenters.length < 5
    · rw [if_pos hlt] at hlen ⊢
      rw [guardLoop_length] at hlen
      have hadj := guardLoop_adj 1 (deltaValues.map (fun d => max 0 d)) 0 0
        (i - 1) (by simpa [hi] using hlen) (by omega)
      rw [hi] at hadj
      exact hadj
    · rw [if_neg hlt] at hlen ⊢
      rw [List.length_map, guardLoop_length, List.length_map] at hlen
      have hadj := guardLoop_adj (tailStartIdx binCenters (8 / 10))
        (deltaValues.map (fun d => max 0 d)) 0 0 (i - 1)
        (by simp only [List.length_map]; omega) (by omega)
      rw [hi] at hadj
      rw [getD_map_max0 _ _ (by rw [guardLoop_length, List.length_map]; omega),
        getD_map_max0 _ _ (by rw [guardLoop_length, List.length_map]; omega)]
      exact max_le_max le_rfl hadj

/-- C3 counterexample: a curve fitted (at group level, `min_samples = 1`)
from five observations with one observation per 10 cm bin and deltas
`1, 1, 1, 1, 5` stores the bin list `[(5,1), (15,1), (25,1), (35,1), (45,5)]`
unchanged: the stored delta at the last bin (5) exceeds the one before it (1)
although both bins lie in the guardrail tail (which starts at index 3, the
clamped 80th-percentile position).  The guardrail is applied only to the
values used by the interpolator, not to the stored bins. -/
theorem guardrail_stored_bins_counterexample :
    (fitCurveForGroup obsCE 1 10 (1 / 10) "oak" "Upper").bins
      = [(5, 1), (15, 1), (25, 1), (35, 1), (45, 5)] ∧
    (fitCurveForGroup obsCE 1 10 (1 / 10) "oak" "Upper").fallbackLevel
      = "species_plot" ∧
    tailStartIdx [5, 15, 25, 35, 45] (8 / 10) = 3 ∧
    ¬ (([(5 : ℚ), 15, 25, 35, 45].zip [(1 : ℚ), 1, 1, 1, 5]).map
        Prod.snd).getD 4 0 ≤
      (([(5 : ℚ), 15, 25, 35, 45].zip [(1 : ℚ), 1, 1, 1, 5]).map
        Prod.snd).getD 3 0 := by
  have hbase : (fitCurveForGroup obsCE 1 10 (1 / 10) "oak" "Upper").bins =
      fitBins obsCE (computeBinEdges obsCE 10) (1 / 10) := by
    simp only [fitCurveForGroup]
    rw [show obsCE.filter (fun o => o.species = "oak" ∧ o.plot = "Upper")
        = obsCE from by decide]
    rw [if_pos (by decide)]
  have hedges : computeBinEdges obsCE 10 = [0, 10, 20, 30, 40, 50] := by
    simp only [computeBinEdges]
    rw [show listMin (obsCE.map (·.prevDbh)) = 5 from by
          norm_num [obsCE, listMin],
        show listMax (obsCE.map (·.prevDbh)) = 45 from by
          norm_num [obsCE, listMax],
        int_floor_eval ((5 : ℚ) / 10) 0 (by norm_num) (by norm_num),
        int_ceil_eval ((45 : ℚ) / 10) 5 (by norm_num) (by norm_num),
        npArange_eval _ _ _ 6 (by
          rw [show ((((5 : ℤ) : ℚ)) * 10 + 10 - ((0 : ℤ) : ℚ) * 10) / 10 = 6
                from by push_cast; norm_num,
              int_ceil_eval 6 6 (by norm_num) (by norm_num)]
          rfl),
        show List.range 6 = [0, 1, 2, 3, 4, 5] from by decide]
    norm_num
  have hbins : fitBins obsCE [0, 10, 20, 30, 40, 50] (1 / 10) =
      [(5, 1), (15, 1), (25, 1), (35, 1), (45, 5)] := by
    norm_num [fitBins, obsCE, fitBinValue, listMedian, sortAsc,
      List.filterMap_cons, List.filter]
  refine ⟨by rw [hbase, hedges, hbins], ?_, ?_, by decide⟩
  · simp only [fitCurveForGroup]
    rw [show obsCE.filter (fun o => o.species = "oak" ∧ o.plot = "Upper")
        = obsCE from by decide]
    rw [if_pos (by decide)]
  · norm_num [tailStartIdx, npQuantile, sortAsc, quantileAtPos,
      searchsortedRight, List.countP_cons, Int.reduceToNat]

/-- C3 amended-claim witness at a concrete 5-bin curve whose raw tail
increases. -/
theorem guardrail_invariants_witness :
    (([5, 15, 25, 35, 45] : List ℚ) ≠ [] ∧ ([1, 1, 1, 1, 5] : List ℚ) ≠ [] ∧
      (∀ b ∈ ([(10, 2)] : List (ℚ × ℚ)), 0 ≤ b.2)) ∧
    ((∀ b ∈ fitBins obsCE [0, 10, 20, 30, 40, 50] (1 / 10), 0 ≤ b.2) ∧
     (∀ v ∈ applyHighDbhGuardrail [5, 15, 25, 35, 45] [1, 1, 1, 1, 5],
        0 ≤ v) ∧
     (∀ i, tailStartIdx [5, 15, 25, 35, 45] (8 / 10) ≤ i → 1 ≤ i →
        i < (applyHighDbhGuardrail [5, 15, 25, 35, 45]
          [1, 1, 1, 1, 5]).length →
        (applyHighDbhGuardrail [5, 15, 25, 35, 45] [1, 1, 1, 1, 5]).getD i 0 ≤
          (applyHighDbhGuardrail [5, 15, 25, 35, 45]
            [1, 1, 1, 1, 5]).getD (i - 1) 0) ∧
     0 ≤ createInterpolator [(10, 2)] true 30) :=
  ⟨⟨by decide, by decide, by decide⟩,
   guardrail_invariants [5, 15, 25, 35, 45] [1, 1, 1, 1, 5] (by decide)
     (by decide) obsCE [0, 10, 20, 30, 40, 50] (1 / 10) [(10, 2)] true 30
     (by decide)⟩

/-!
## C7 — residual clip bounds
-/

/-- `sortAsc` sorts. -/
theorem sortAsc_sorted (l : List ℚ) : (sortAsc l).Sorted (· ≤ ·) :=
  List.sorted_insertionSort _ l

/-- `sortAsc` preserves length. -/
theorem sortAsc_length (l : List ℚ) : (sortAsc l).length = l.length :=
  (List.perm_insertionSort _ l).length_eq

/-- Monotone access into a sorted list. -/
theorem sorted_getD_mono {l : List ℚ} (hs : l.Sorted (· ≤ ·)) {i j : ℕ}
    (hij : i ≤ j) (hj : j < l.length) : l.getD i 0 ≤ l.getD j 0 := by
  have hi : i < l.length := lt_of_le_of_lt hij hj
  rw [List.getD_eq_getElem?_getD, List.getElem?_eq_getElem hi,
      List.getD_eq_getElem?_getD, List.getElem?_eq_getElem hj]
  show l[i] ≤ l[j]
  rcases eq_or_lt_of_le hij with rfl | hlt
  · exact le_refl _
  · have := hs.rel_get_of_lt (a := ⟨i, hi⟩) (b := ⟨j, hj⟩) hlt
    simpa using this

/-- The linear-interpolation quantile is monotone in the position over a
sorted list. -/
theorem quantileAtPos_mono {l : List ℚ} (hs : l.Sorted (· ≤ ·))
    {p1 p2 : ℚ} (h0 : 0 ≤ p1) (h12 : p1 ≤ p2) :
    quantileAtPos l p1 ≤ quantileAtPos l p2 := by
  have h0' : 0 ≤ p2 := le_trans h0 h12
  have e1 : ((⌊p1⌋.toNat : ℤ)) = ⌊p1⌋ :=
    Int.toNat_of_nonneg (Int.floor_nonneg.mpr h0)
  have e2 : ((⌊p2⌋.toNat : ℤ)) = ⌊p2⌋ :=
    Int.toNat_of_nonneg (Int.floor_nonneg.mpr h0')
  have hfl : ⌊p1⌋ ≤ ⌊p2⌋ := Int.floor_le_floor h12
  have hii : ⌊p1⌋.toNat ≤ ⌊p2⌋.toNat := by omega
  have hg1a : (0 : ℚ) ≤ p1 - (⌊p1⌋ : ℚ) := sub_nonneg.mpr (Int.floor_le p1)
  have hg1b : p1 - (⌊p1⌋ : ℚ) ≤ 1 := by
    have := Int.lt_floor_add_one p1
    push_cast at this ⊢
    linarith
  have hg2a : (0 : ℚ) ≤ p2 - (⌊p2⌋ : ℚ) := sub_nonneg.mpr (Int.floor_le p2)
  unfold quantileAtPos
  set i1 := ⌊p1⌋.toNat with hi1
  set i2 := ⌊p2⌋.toNat with hi2
  by_cases hcase : i1 = i2
  · by_cases hb : i1 + 1 < l.length
    · rw [if_pos hb, if_pos (hcase ▸ hb), ← hcase]
      have hd : (0 : ℚ) ≤ l.getD (i1 + 1) 0 - l.getD i1 0 :=
        sub_nonneg.mpr (sorted_getD_mono hs (by omega) hb)
      have hfe : (⌊p1⌋ : ℚ) = (⌊p2⌋ : ℚ) := by
        have hz : ⌊p1⌋ = ⌊p2⌋ := by omega
        exact_mod_cast hz
      have hg12 : p1 - (⌊p1⌋ : ℚ) ≤ p2 - (⌊p2⌋ : ℚ) := by
        rw [← hfe]
        linarith
      exact add_le_add_left (mul_le_mul_of_nonneg_right hg12 hd) _
    · rw [if_neg hb, if_neg (hcase ▸ hb)]
  · have hlt : i1 < i2 := lt_of_le_of_ne hii hcase
    by_cases hb1 : i1 + 1 < l.length
    · rw [if_pos hb1]
      have hd1 : (0 : ℚ) ≤ l.getD (i1 + 1) 0 - l.getD i1 0 :=
        sub_nonneg.mpr (sorted_getD_mono hs (by omega) hb1)
      have hval1 : l.getD i1 0 + (p1 - (⌊p1⌋ : ℚ)) *
          (l.getD (i1 + 1) 0 - l.getD i1 0) ≤ l.getD (i1 + 1) 0 := by
        have := mul_le_mul_of_nonneg_right hg1b hd1
        linarith [this]
      by_cases hb2 : i2 + 1 < l.length
      · rw [if_pos hb2]
        have hmid : l.getD (i1 + 1) 0 ≤ l.getD i2 0 :=
          sorted_getD_mono hs (by omega) (by omega)
        have hval2 : l.getD i2 0 ≤ l.getD i2 0 + (p2 - (⌊p2⌋ : ℚ)) *
            (l.getD (i2 + 1) 0 - l.getD i2 0) :=
          le_add_of_nonneg_right (mul_nonneg hg2a
            (sub_nonneg.mpr (sorted_getD_mono hs (by omega) hb2)))
        linarith
      · rw [if_neg hb2]
        have : l.getD (i1 + 1) 0 ≤ l.getD (l.length - 1) 0 :=
          sorted_getD_mono hs (by omega) (by omega)
        linarith
    · rw [if_neg hb1, if_neg (by omega)]

/-- `np.percentile` is monotone in the requested percentile. -/
theorem npPercentile_mono (l : List ℚ) (hne : l ≠ []) {p1 p2 : ℚ}
    (h0 : 0 ≤ p1) (h12 : p1 ≤ p2) :
    npPercentile l p1 ≤ npPercentile l p2 := by
  have hlen : 1 ≤ (l.length : ℚ) := by
    exact_mod_cast List.length_pos.mpr hne
  unfold npPercentile
  apply quantileAtPos_mono (sortAsc_sorted l)
  · exact mul_nonneg (div_nonneg h0 (by norm_num)) (by linarith)
  · have hp : p1 / 100 ≤ p2 / 100 := by linarith
    exact mul_le_mul_of_nonneg_right hp (by linarith)

/-- C7: the clip bounds are the 5th and 95th percentiles of the training
residuals (so `clip_low ≤ clip_high` for any nonempty training set), and the
hybrid prediction's residual contribution is the raw model output clipped
into `[clip_low, clip_high]` before being added to the baseline delta. -/
theorem residual_clip_bounds_contain_contribution
    (yTrain : List ℚ) (hne : yTrain ≠ []) (prevDbhCm : ℚ)
    (species plot : String) (curves : Curves) (modelOut : ℚ) :
    (computeResidualClipBounds yTrain).1 = npPercentile yTrain 5 ∧
    (computeResidualClipBounds yTrain).2 = npPercentile yTrain 95 ∧
    (computeResidualClipBounds yTrain).1 ≤
      (computeResidualClipBounds yTrain).2 ∧
    (computeResidualClipBounds yTrain).1 ≤
      (predictDeltaHybrid prevDbhCm species plot curves
        (computeResidualClipBounds yTrain).1
        (computeResidualClipBounds yTrain).2 modelOut).2.1 ∧
    (predictDeltaHybrid prevDbhCm species plot curves
      (computeResidualClipBounds yTrain).1
      (computeResidualClipBounds yTrain).2 modelOut).2.1 ≤
      (computeResidualClipBounds yTrain).2 ∧
    (predictDeltaHybrid prevDbhCm species plot curves
      (computeResidualClipBounds yTrain).1
      (computeResidualClipBounds yTrain).2 modelOut).2.2 =
      (predictDeltaHybrid prevDbhCm species plot curves
        (computeResidualClipBounds yTrain).1
        (computeResidualClipBounds yTrain).2 modelOut).1 +
      (predictDeltaHybrid prevDbhCm species plot curves
        (computeResidualClipBounds yTrain).1
        (computeResidualClipBounds yTrain).2 modelOut).2.1 := by
  have hlohi : npPercentile yTrain 5 ≤ npPercentile yTrain 95 :=
    npPercentile_mono yTrain hne (by norm_num) (by norm_num)
  refine ⟨rfl, rfl, hlohi, ?_, ?_, rfl⟩
  · exact le_min (le_max_right _ _) hlohi
  · exact min_le_right _ _

/-- C7 witness at a concrete training set and a raw model output far above
the bounds. -/
theorem residual_clip_bounds_contain_contribution_witness :
    ([(1 : ℚ), 2, 3, 4] ≠ []) ∧
    ((computeResidualClipBounds [1, 2, 3, 4]).1 = npPercentile [1, 2, 3, 4] 5 ∧
     (computeResidualClipBounds [1, 2, 3, 4]).2 =
       npPercentile [1, 2, 3, 4] 95 ∧
     (computeResidualClipBounds [1, 2, 3, 4]).1 ≤
       (computeResidualClipBounds [1, 2, 3, 4]).2 ∧
     (computeResidualClipBounds [1, 2, 3, 4]).1 ≤
       (predictDeltaHybrid 10 "oak" "Upper" curvesW
         (computeResidualClipBounds [1, 2, 3, 4]).1
         (computeResidualClipBounds [1, 2, 3, 4]).2 100).2.1 ∧
     (predictDeltaHybrid 10 "oak" "Upper" curvesW
       (computeResidualClipBounds [1, 2, 3, 4]).1
       (computeResidualClipBounds [1, 2, 3, 4]).2 100).2.1 ≤
       (computeResidualClipBounds [1, 2, 3, 4]).2 ∧
     (predictDeltaHybrid 10 "oak" "Upper" curvesW
       (computeResidualClipBounds [1, 2, 3, 4]).1
       (computeResidualClipBounds [1, 2, 3, 4]).2 100).2.2 =
       (predictDeltaHybrid 10 "oak" "Upper" curvesW
         (computeResidualClipBounds [1, 2, 3, 4]).1
         (computeResidualClipBounds [1, 2, 3, 4]).2 100).1 +
       (predictDeltaHybrid 10 "oak" "Upper" curvesW
         (computeResidualClipBounds [1, 2, 3, 4]).1
         (computeResidualClipBounds [1, 2, 3, 4]).2 100).2.1) :=
  ⟨by decide,
   residual_clip_bounds_contain_contribution [1, 2, 3, 4] (by decide) 10
     "oak" "Upper" curvesW 100⟩

/-!
## C4 — horizons restart from the base population
-/

/-- Whatever snapshot `generate_forest_snapshots` associates with horizon
`h` is the one obtained by restarting from the base population and applying
exactly `h` one-year steps. -/
theorem generateForestSnapshots_mem (curves : Curves)
    (sigmaOf : String → String → ℚ) (noiseStream : ℕ → ℕ → ℚ)
    (mode : String) (seed : ℕ) (baseForest : List Tree) (yearsList : List ℤ)
    (out : List (ℤ × SnapshotDf)) (h : ℤ) (s : SnapshotDf)
    (hok : generateForestSnapshots curves sigmaOf noiseStream mode seed
      baseForest yearsList = .ok out)
    (hm : (h, s) ∈ out) :
    s = if h = 0 then { trees := baseForest, yearsAhead := 0 }
        else
          { trees := simulateForestYearsCore curves sigmaOf noiseStream mode
              seed baseForest h.toNat
            yearsAhead := h } := by
  unfold generateForestSnapshots at hok
  split at hok
  · simp at hok
  · split at hok
    · simp at hok
    · rw [Except.ok.injEq] at hok
      rw [← hok] at hm
      obtain ⟨y, -, hy⟩ := List.mem_map.mp hm
      rw [Prod.mk.injEq] at hy
      obtain ⟨rfl, rfl⟩ := hy
      rfl

/-- C4: for every two requested horizon lists that both contain `h`, the
snapshot produced for `h` is the same, and it is the one computed by
restarting from the base population and applying exactly `h` one-year steps
(in stochastic mode the per-year seeds are `seed + 0, …, seed + h - 1`
independently of the other requested horizons). -/
theorem horizon_snapshots_independent (curves : Curves)
    (sigmaOf : String → String → ℚ) (noiseStream : ℕ → ℕ → ℚ)
    (mode : String) (seed : ℕ) (baseForest : List Tree)
    (yearsList1 yearsList2 : List ℤ)
    (out1 out2 : List (ℤ × SnapshotDf)) (h : ℤ) (s1 s2 : SnapshotDf)
    (hok1 : generateForestSnapshots curves sigmaOf noiseStream mode seed
      baseForest yearsList1 = .ok out1)
    (hok2 : generateForestSnapshots curves sigmaOf noiseStream mode seed
      baseForest yearsList2 = .ok out2)
    (hm1 : (h, s1) ∈ out1) (hm2 : (h, s2) ∈ out2) :
    s1 = s2 ∧
    s1 = (if h = 0 then { trees := baseForest, yearsAhead := 0 }
          else
            { trees := simulateForestYearsCore curves sigmaOf noiseStream
                mode seed baseForest h.toNat
              yearsAhead := h }) := by
  have e1 := generateForestSnapshots_mem curves sigmaOf noiseStream mode seed
    baseForest yearsList1 out1 h s1 hok1 hm1
  have e2 := generateForestSnapshots_mem curves sigmaOf noiseStream mode seed
    baseForest yearsList2 out2 h s2 hok2 hm2
  exact ⟨e1.trans e2.symm, e1⟩

/-- C4 witness: requesting `[0, 2, 1]` and `[1]` over the one-tree fixture
yields the identical horizon-1 snapshot, equal to one step from the base
forest. -/
theorem horizon_snapshots_independent_witness :
    generateForestSnapshots curvesH sigmaH noiseH "baseline" 0 baseH
      [0, 2, 1] = .ok (outH [0, 2, 1]) ∧
    generateForestSnapshots curvesH sigmaH noiseH "baseline" 0 baseH [1] =
      .ok (outH [1]) ∧
    ((1 : ℤ), snapH 1) ∈ outH [0, 2, 1] ∧
    ((1 : ℤ), snapH 1) ∈ outH [1] ∧
    (snapH 1 = snapH 1 ∧
     snapH 1 = (if (1 : ℤ) = 0 then { trees := baseH, yearsAhead := 0 }
        else
          { trees := simulateForestYearsCore curvesH sigmaH noiseH "baseline"
              0 baseH (1 : ℤ).toNat
            yearsAhead := (1 : ℤ) })) := by
  have hm1 : ((1 : ℤ), snapH 1) ∈ outH [0, 2, 1] := by
    rw [show outH [0, 2, 1] = [(0, snapH 0), (1, snapH 1), (2, snapH 2)]
        from rfl]
    exact List.mem_cons_of_mem _ (List.mem_cons_self _ _)
  have hm2 : ((1 : ℤ), snapH 1) ∈ outH [1] := by
    rw [show outH [1] = [(1, snapH 1)] from rfl]
    exact List.mem_cons_self _ _
  exact ⟨rfl, rfl, hm1, hm2,
    horizon_snapshots_independent curvesH sigmaH noiseH "baseline" 0 baseH
      [0, 2, 1] [1] (outH [0, 2, 1]) (outH [1]) 1 (snapH 1) (snapH 1) rfl rfl
      hm1 hm2⟩

end CO2Pomfret
